import Mathlib

/-!
Verification of the class-based ride-sharing system (`src/rideshre.cpp`).

The C++ program is embedded shallowly:
* money and distances (C++ `double`) are modelled as exact rationals `ℚ`;
* the virtual dispatch of `fare()` over the class hierarchy
  `Ride` / `StandardRide` / `PremiumRide` is modelled by a tag `RideKind`
  carried inside a single `Ride` structure (Premium carries its
  `luxuryMultiplier` in the tag);
* the process-wide static counter `Ride::nextID` is modelled by explicit
  state passing: each constructor takes the current counter and returns the
  constructed ride together with the new counter;
* `std::shared_ptr<Ride>` references are modelled as `Option Nat`: `none`
  is a null pointer, `some i` points at index `i` of a store
  (`List Ride`) holding the ride objects, so that sharing and frame
  properties of `Driver::clearAssignedRides` are expressible.
-/

namespace RideShare

/-- Tag distinguishing the three concrete classes of the `Ride` hierarchy.
`premium` carries the `luxuryMultiplier` field of `PremiumRide`. -/
inductive RideKind where
  | base : RideKind
  | standard : RideKind
  | premium : ℚ → RideKind
deriving DecidableEq

/-- The `Ride` class: fields `rideID`, `pickupLocation`, `dropoffLocation`,
`distanceMiles` (lines 12–15 of the source) plus the dynamic-type tag. -/
structure Ride where
  rideID : Nat
  pickupLocation : String
  dropoffLocation : String
  distanceMiles : ℚ
  kind : RideKind
deriving DecidableEq

/-- Initial value of the static counter: `int Ride::nextID = 1;` (line 48). -/
def Ride.nextIDInit : Nat := 1

/-- Virtual `fare()` (lines 30–35, 57–63, 80–86).  Base: `max(2.0, 1.0*d)`;
Standard: `max(3.0, 1.5*d + 1.0)` (booking fee 1.0);
Premium: `max(10.0, 2.5*d*multiplier + 2.0)` (surge 2.0). -/
def Ride.fare (r : Ride) : ℚ :=
  match r.kind with
  | RideKind.base => max 2 (1 * r.distanceMiles)
  | RideKind.standard => max 3 (1.5 * r.distanceMiles + 1)
  | RideKind.premium m => max 10 (2.5 * r.distanceMiles * m + 2)

/-- Constructor `Ride::Ride` (lines 18–19): stores the arguments, takes
`nextID++` as its id.  The counter is passed and returned explicitly. -/
def Ride.create (nextID : Nat) (pickup dropoff : String) (distance : ℚ) :
    Ride × Nat :=
  ({ rideID := nextID, pickupLocation := pickup, dropoffLocation := dropoff,
     distanceMiles := distance, kind := RideKind.base }, nextID + 1)

/-- Constructor `StandardRide::StandardRide` (lines 54–55): delegates to the
base constructor. -/
def StandardRide.create (nextID : Nat) (pickup dropoff : String)
    (distance : ℚ) : Ride × Nat :=
  ({ rideID := nextID, pickupLocation := pickup, dropoffLocation := dropoff,
     distanceMiles := distance, kind := RideKind.standard }, nextID + 1)

/-- Constructor `PremiumRide::PremiumRide` (lines 77–78) with an explicit
multiplier argument. -/
def PremiumRide.createWith (nextID : Nat) (pickup dropoff : String)
    (distance multiplier : ℚ) : Ride × Nat :=
  ({ rideID := nextID, pickupLocation := pickup, dropoffLocation := dropoff,
     distanceMiles := distance, kind := RideKind.premium multiplier }, nextID + 1)

/-- Default value of the `multiplier` parameter of the `PremiumRide`
constructor (line 77: `double multiplier = 2.0`). -/
def PremiumRide.defaultMultiplier : ℚ := 2

/-- `PremiumRide` constructed without supplying a multiplier: the default
argument `2.0` is used. -/
def PremiumRide.create (nextID : Nat) (pickup dropoff : String)
    (distance : ℚ) : Ride × Nat :=
  PremiumRide.createWith nextID pickup dropoff distance
    PremiumRide.defaultMultiplier

/-- A request to construct one ride of a given variant, as a caller of the
constructors would issue it. -/
inductive RideRequest where
  | base : String → String → ℚ → RideRequest
  | standard : String → String → ℚ → RideRequest
  | premium : String → String → ℚ → ℚ → RideRequest

/-- Run one constructor call against the current value of `Ride::nextID`. -/
def createRide (nextID : Nat) : RideRequest → Ride × Nat
  | RideRequest.base p q d => Ride.create nextID p q d
  | RideRequest.standard p q d => StandardRide.create nextID p q d
  | RideRequest.premium p q d m => PremiumRide.createWith nextID p q d m

/-- Run a sequence of constructor calls, threading the counter through. -/
def createAll (nextID : Nat) : List RideRequest → List Ride × Nat
  | [] => ([], nextID)
  | req :: reqs =>
      let rn := createRide nextID req
      let rest := createAll rn.2 reqs
      (rn.1 :: rest.1, rest.2)

/-- Dereference a shared pointer: `none` is a null pointer, `some i` yields
the ride at index `i` of the store of all created rides. -/
def resolve (store : List Ride) (ref : Option Nat) : Option Ride :=
  ref.bind fun i => store[i]?

/-- The `Driver` class (lines 96–130): id, name, rating and the private
vector `assignedRides` of shared pointers. -/
structure Driver where
  driverID : Int
  name : String
  rating : ℚ
  assignedRides : List (Option Nat)
deriving DecidableEq

/-- `Driver::addRide` (lines 107–109): `assignedRides.push_back(ride)`. -/
def Driver.addRide (d : Driver) (ride : Option Nat) : Driver :=
  { d with assignedRides := d.assignedRides ++ [ride] }

/-- `Driver::getAssignedCount` (line 126): `assignedRides.size()`. -/
def Driver.getAssignedCount (d : Driver) : Nat :=
  d.assignedRides.length

/-- The count printed in the header of `Driver::getDriverInfo` (line 114):
also `assignedRides.size()`. -/
def Driver.summaryCount (d : Driver) : Nat :=
  d.assignedRides.length

/-- `Driver::clearAssignedRides` (line 129): `assignedRides.clear()`. -/
def Driver.clearAssignedRides (d : Driver) : Driver :=
  { d with assignedRides := [] }

/-- One step of the earnings loop of `Driver::getDriverInfo`
(lines 116–121): for a reference `r`, `if (r)` add `r->fare()`, else skip. -/
def Driver.earnStep (store : List Ride) (acc : ℚ) (ref : Option Nat) : ℚ :=
  match resolve store ref with
  | some r => acc + r.fare
  | none => acc

/-- The `totalEarnings` accumulation of `Driver::getDriverInfo`
(lines 115–121): fold the loop step over `assignedRides`, starting at 0. -/
def Driver.totalEarnings (store : List Ride) (d : Driver) : ℚ :=
  d.assignedRides.foldl (Driver.earnStep store) 0

/-- The rides whose details `Driver::getDriverInfo` prints and whose fares
it adds: exactly the non-null entries of `assignedRides`, in order
(lines 116–121). -/
def Driver.detailedRides (store : List Ride) (d : Driver) : List Ride :=
  d.assignedRides.filterMap (resolve store)

/-- The `Rider` class (lines 134–155): id, name and the private vector
`requestedRides` of shared pointers. -/
structure Rider where
  riderID : Int
  name : String
  requestedRides : List (Option Nat)
deriving DecidableEq

/-- `Rider::requestRide` (lines 144–146): `requestedRides.push_back(ride)`. -/
def Rider.requestRide (r : Rider) (ride : Option Nat) : Rider :=
  { r with requestedRides := r.requestedRides ++ [ride] }

/-- Clear the assigned rides of the driver at position `i` of a list of
drivers, leaving every other driver untouched. -/
def clearDriverAt : List Driver → Nat → List Driver
  | [], _ => []
  | d :: ds, 0 => d.clearAssignedRides :: ds
  | d :: ds, n + 1 => d :: clearDriverAt ds n

/-- A snapshot of the program state as `main` builds it: the store of all
created ride objects, the drivers and the riders.  Drivers and riders hold
shared references into the store. -/
structure System where
  store : List Ride
  drivers : List Driver
  riders : List Rider

/-- Calling `clearAssignedRides()` on the driver at position `i`: only that
driver's collection is touched. -/
def System.clearDriverRides (s : System) (i : Nat) : System :=
  { s with drivers := clearDriverAt s.drivers i }

/-- A concrete one-ride store for evaluating the theorems: the ride
`StandardRide("Home", "Office", 4.5)` of the demo program. -/
def storeW : List Ride := [(StandardRide.create 1 "Home" "Office" 4.5).1]

/-- A concrete driver holding one valid reference and one null reference. -/
def driverW1 : Driver :=
  { driverID := 101, name := "Aisha Khan", rating := 4.92,
    assignedRides := [some 0, none] }

/-- The same references as `driverW1` in the opposite order. -/
def driverW2 : Driver :=
  { driverID := 101, name := "Aisha Khan", rating := 4.92,
    assignedRides := [none, some 0] }

/-- A concrete driver with no assigned rides. -/
def driverW3 : Driver :=
  { driverID := 102, name := "Carlos Mendez", rating := 4.8,
    assignedRides := [] }

/-! Helper lemmas. -/

/-- Every constructor assigns the current counter as the id and bumps the
counter by one. -/
theorem createRide_id (n : Nat) (req : RideRequest) :
    (createRide n req).1.rideID = n ∧ (createRide n req).2 = n + 1 := by
  cases req <;> exact ⟨rfl, rfl⟩

/-- The ids produced by a creation sequence starting at counter `n` are
`n, n+1, …`. -/
theorem createAll_map_id (reqs : List RideRequest) :
    ∀ n : Nat,
      (createAll n reqs).1.map Ride.rideID = List.range' n reqs.length := by
  induction reqs with
  | nil => intro n; rfl
  | cons req reqs ih =>
      intro n
      have hid : (createRide n req).1.rideID = n := (createRide_id n req).1
      have hctr : (createRide n req).2 = n + 1 := (createRide_id n req).2
      simp [createAll, List.range'_succ, hid, hctr, ih]

/-- `range'` with step 1 steps by exactly 1 between consecutive entries. -/
theorem chain'_succ_range' :
    ∀ (n s : Nat), List.Chain' (fun a b => b = a + 1) (List.range' s n)
  | 0, _ => by simp
  | n + 1, s => by
      rw [List.range'_succ]
      match n with
      | 0 => simp
      | m + 1 =>
          rw [List.range'_succ, List.chain'_cons, ← List.range'_succ]
          exact ⟨rfl, chain'_succ_range' (m + 1) (s + 1)⟩

/-- Unfolding the earnings fold into a sum over the resolvable entries. -/
theorem foldl_earnStep (store : List Ride) :
    ∀ (l : List (Option Nat)) (a : ℚ),
      l.foldl (Driver.earnStep store) a
        = a + ((l.filterMap (resolve store)).map Ride.fare).sum := by
  intro l
  induction l with
  | nil => intro a; simp
  | cons ref l ih =>
      intro a
      cases h : resolve store ref with
      | none => simp [Driver.earnStep, h, ih, List.filterMap_cons]
      | some r =>
          simp only [List.foldl_cons, Driver.earnStep, h, ih,
            List.filterMap_cons, List.map_cons, List.sum_cons]
          ring

/-- Folding `addRide` over a list of references appends the list. -/
theorem foldl_addRide (rs : List (Option Nat)) :
    ∀ d : Driver,
      (rs.foldl Driver.addRide d).assignedRides = d.assignedRides ++ rs := by
  induction rs with
  | nil => intro d; simp
  | cons r rs ih => intro d; simp [Driver.addRide, ih]

/-- If some element maps to `none`, `filterMap` is strictly shorter. -/
theorem length_filterMap_lt {α β : Type} (f : α → Option β) :
    ∀ l : List α, (∃ a ∈ l, f a = none) →
      (l.filterMap f).length < l.length := by
  intro l
  induction l with
  | nil => rintro ⟨a, ha, hfa⟩; cases ha
  | cons x l ih =>
      rintro ⟨a, ha, hfa⟩
      rcases List.mem_cons.mp ha with h | h
      · subst h
        rw [List.filterMap_cons_none hfa]
        exact Nat.lt_succ_of_le (List.length_filterMap_le f l)
      · cases hx : f x with
        | none =>
            rw [List.filterMap_cons_none hx]
            exact Nat.lt_succ_of_le (List.length_filterMap_le f l)
        | some b =>
            rw [List.filterMap_cons_some hx]
            simpa using ih ⟨a, h, hfa⟩

/-- Pointwise description of `clearDriverAt`: position `i` is cleared,
every other position is untouched. -/
theorem clearDriverAt_getElem? :
    ∀ (ds : List Driver) (i j : Nat),
      (clearDriverAt ds i)[j]? =
        if j = i then (ds[j]?).map Driver.clearAssignedRides else ds[j]? := by
  intro ds
  induction ds with
  | nil => intro i j; simp [clearDriverAt]
  | cons d ds ih =>
      intro i j
      match i, j with
      | 0, 0 => simp [clearDriverAt]
      | 0, j + 1 => simp [clearDriverAt]
      | i + 1, 0 => simp [clearDriverAt]
      | i + 1, j + 1 => simpa [clearDriverAt] using ih i j

/-! Claim theorems. -/

/-- C1: for every nonnegative distance, `StandardRide::fare` returns
exactly `max(3.00, 1.50 * distanceMiles + 1.00)`; in particular the ride
`StandardRide("Downtown", "Airport", 18.4)` has fare 28.60. -/
theorem standardRide_fare_correct :
    (∀ (n : Nat) (p q : String) (d : ℚ), 0 ≤ d →
        ((StandardRide.create n p q d).1).fare = max 3 (1.5 * d + 1))
    ∧ ((StandardRide.create Ride.nextIDInit "Downtown" "Airport" 18.4).1).fare
        = 28.6 := by
  constructor
  · intro n p q d _
    rfl
  · norm_num [Ride.fare, StandardRide.create]

/-- Witness for C1 at the concrete distance 18.4. -/
theorem standardRide_fare_correct_witness :
    (0 : ℚ) ≤ 18.4
    ∧ ((StandardRide.create 1 "Downtown" "Airport" 18.4).1).fare
        = max 3 (1.5 * 18.4 + 1) :=
  ⟨by norm_num,
    standardRide_fare_correct.1 1 "Downtown" "Airport" 18.4 (by norm_num)⟩

/-- C2: for every nonnegative distance and multiplier, `PremiumRide::fare`
returns exactly `max(10.00, 2.50 * distanceMiles * multiplier + 2.00)`; a
`PremiumRide` constructed without a multiplier gets the default 2.0; in
particular `PremiumRide("Hotel", "Convention Center", 12.0)` has fare
62.00. -/
theorem premiumRide_fare_correct :
    (∀ (n : Nat) (p q : String) (d m : ℚ), 0 ≤ d → 0 ≤ m →
        ((PremiumRide.createWith n p q d m).1).fare
          = max 10 (2.5 * d * m + 2))
    ∧ (∀ (n : Nat) (p q : String) (d : ℚ),
        ((PremiumRide.create n p q d).1).kind = RideKind.premium 2)
    ∧ ((PremiumRide.create Ride.nextIDInit "Hotel" "Convention Center" 12).1).fare
        = 62 := by
  refine ⟨fun n p q d m _ _ => rfl, fun n p q d => rfl, ?_⟩
  norm_num [Ride.fare, PremiumRide.create, PremiumRide.createWith,
    PremiumRide.defaultMultiplier]

/-- Witness for C2 at the demo ride `PremiumRide("Mall","University",7.2,1.5)`. -/
theorem premiumRide_fare_correct_witness :
    ((0 : ℚ) ≤ 7.2 ∧ (0 : ℚ) ≤ 1.5)
    ∧ ((PremiumRide.createWith 2 "Mall" "University" 7.2 1.5).1).fare
        = max 10 (2.5 * 7.2 * 1.5 + 2) :=
  ⟨⟨by norm_num, by norm_num⟩,
    premiumRide_fare_correct.1 2 "Mall" "University" 7.2 1.5
      (by norm_num) (by norm_num)⟩

/-- C3: for every nonnegative distance, the base `Ride::fare` returns
exactly `max(2.00, 1.00 * distanceMiles)`. -/
theorem base_fare_correct (n : Nat) (p q : String) (d : ℚ) (_hd : 0 ≤ d) :
    ((Ride.create n p q d).1).fare = max 2 (1 * d) := rfl

/-- Witness for C3 at distance 5. -/
theorem base_fare_correct_witness :
    (0 : ℚ) ≤ 5
    ∧ ((Ride.create 1 "Home" "Office" 5).1).fare = max 2 (1 * 5) :=
  ⟨by norm_num, base_fare_correct 1 "Home" "Office" 5 (by norm_num)⟩

/-- C4: running any sequence of constructor calls from the initial counter
value 1 yields ids `1, 2, 3, …`: the list of assigned ids is
`range' 1 n`, the ids have no duplicates, are strictly increasing, and each
successive id is exactly the previous one plus 1, regardless of variant. -/
theorem ride_ids_sequential (reqs : List RideRequest) :
    (createAll Ride.nextIDInit reqs).1.map Ride.rideID
        = List.range' 1 reqs.length
    ∧ ((createAll Ride.nextIDInit reqs).1.map Ride.rideID).Nodup
    ∧ List.Pairwise (fun a b => a < b)
        ((createAll Ride.nextIDInit reqs).1.map Ride.rideID)
    ∧ List.Chain' (fun a b => b = a + 1)
        ((createAll Ride.nextIDInit reqs).1.map Ride.rideID) := by
  have h : (createAll Ride.nextIDInit reqs).1.map Ride.rideID
      = List.range' 1 reqs.length := createAll_map_id reqs Ride.nextIDInit
  refine ⟨h, ?_, ?_, ?_⟩ <;> rw [h]
  · exact List.nodup_range' 1 reqs.length
  · exact List.pairwise_lt_range' 1 reqs.length
  · exact chain'_succ_range' reqs.length 1

/-- C5 counterexample: constructing a `Ride` with the negative distance
-1 does not fail: a ride is produced, it stores the distance -1, it is
assigned the id 1, and the counter is consumed (advances to 2). -/
theorem ride_create_negative_no_failure :
    ((Ride.create Ride.nextIDInit "Downtown" "Airport" (-1)).1).distanceMiles
        = -1
    ∧ ((Ride.create Ride.nextIDInit "Downtown" "Airport" (-1)).1).rideID = 1
    ∧ (Ride.create Ride.nextIDInit "Downtown" "Airport" (-1)).2 = 2 :=
  ⟨rfl, rfl, rfl⟩

/-- C5 amended: `Ride` creation never fails — for every distance,
negative ones included, it stores the arguments unchanged, assigns the
next sequential id, and advances the counter by one; there is no other
effect. -/
theorem ride_create_total (n : Nat) (p q : String) (d : ℚ) :
    (Ride.create n p q d).1.rideID = n
    ∧ (Ride.create n p q d).1.pickupLocation = p
    ∧ (Ride.create n p q d).1.dropoffLocation = q
    ∧ (Ride.create n p q d).1.distanceMiles = d
    ∧ (Ride.create n p q d).2 = n + 1 :=
  ⟨rfl, rfl, rfl, rfl, rfl⟩

/-- C6: the earnings total of `Driver::getDriverInfo` equals the sum of
`fare()` over exactly the resolvable (non-null) rides currently in
`assignedRides`, and it is order-independent: drivers whose collections
are permutations of one another report the same total. -/
theorem totalEarnings_correct :
    (∀ (store : List Ride) (d : Driver),
        d.totalEarnings store
          = ((d.assignedRides.filterMap (resolve store)).map Ride.fare).sum)
    ∧ (∀ (store : List Ride) (d e : Driver),
        d.assignedRides.Perm e.assignedRides →
          d.totalEarnings store = e.totalEarnings store) := by
  have key : ∀ (store : List Ride) (d : Driver),
      d.totalEarnings store
        = ((d.assignedRides.filterMap (resolve store)).map Ride.fare).sum := by
    intro store d
    simpa using foldl_earnStep store d.assignedRides 0
  refine ⟨key, fun store d e hperm => ?_⟩
  rw [key, key]
  exact List.Perm.sum_eq (List.Perm.map _ (List.Perm.filterMap _ hperm))

/-- Witness for C6: two concrete drivers holding the same references in
opposite orders report the same total. -/
theorem totalEarnings_correct_witness :
    driverW1.totalEarnings storeW
      = ((driverW1.assignedRides.filterMap (resolve storeW)).map Ride.fare).sum
    ∧ driverW1.totalEarnings storeW = driverW2.totalEarnings storeW :=
  ⟨totalEarnings_correct.1 storeW driverW1,
    totalEarnings_correct.2 storeW driverW1 driverW2
      (List.Perm.swap none (some 0) [])⟩

/-- C7: `Driver::addRide` appends the given reference at the end of
`assignedRides` (no deduplication, no capacity limit), so starting from an
empty collection, `getAssignedCount` equals the exact number of
`addRide` calls, duplicates and nulls counted. -/
theorem addRide_count_correct :
    (∀ (d : Driver) (r : Option Nat),
        (d.addRide r).assignedRides = d.assignedRides ++ [r])
    ∧ (∀ (d : Driver) (rs : List (Option Nat)), d.assignedRides = [] →
        (rs.foldl Driver.addRide d).getAssignedCount = rs.length) := by
  refine ⟨fun d r => rfl, fun d rs h => ?_⟩
  simp [Driver.getAssignedCount, foldl_addRide, h]

/-- Witness for C7: three additions to an empty driver, one of them a
duplicate and one null, give count 3. -/
theorem addRide_count_correct_witness :
    driverW3.assignedRides = []
    ∧ ([some 0, some 0, none].foldl Driver.addRide driverW3).getAssignedCount
        = 3 :=
  ⟨rfl, addRide_count_correct.2 driverW3 [some 0, some 0, none] rfl⟩

/-- C8: clearing the assigned rides of one driver empties exactly that
driver's collection (its count becomes 0); the store of ride objects is
unchanged, so every previously referenced ride keeps its id, endpoints,
distance and fare, and all riders and all other drivers are unaffected. -/
theorem clear_frame_correct (s : System) (i : Nat) :
    (s.clearDriverRides i).store = s.store
    ∧ (s.clearDriverRides i).riders = s.riders
    ∧ (∀ j, ((s.clearDriverRides i).drivers)[j]?
        = if j = i then (s.drivers[j]?).map Driver.clearAssignedRides
          else s.drivers[j]?)
    ∧ (∀ d : Driver, (Driver.clearAssignedRides d).getAssignedCount = 0)
    ∧ (∀ ref : Option Nat,
        resolve ((s.clearDriverRides i).store) ref = resolve s.store ref) :=
  ⟨rfl, rfl, fun j => clearDriverAt_getElem? s.drivers i j,
    fun _ => rfl, fun _ => rfl⟩

/-- C9: whatever the distance (negative values included — the
constructors perform no range validation) and whatever the multiplier,
the fare never falls below the variant's floor: 2.00 for base, 3.00 for
Standard, 10.00 for Premium. -/
theorem fare_floor_correct (n : Nat) (p q : String) (d m : ℚ) :
    2 ≤ ((Ride.create n p q d).1).fare
    ∧ 3 ≤ ((StandardRide.create n p q d).1).fare
    ∧ 10 ≤ ((PremiumRide.createWith n p q d m).1).fare :=
  ⟨le_max_left _ _, le_max_left _ _, le_max_left _ _⟩

/-- C10: a null reference in `assignedRides` is counted by
`getAssignedCount` and by the count printed in the summary header, but is
skipped in the per-ride details and contributes nothing to the earnings
sum, so the reported count strictly exceeds the number of rides included
in the total. -/
theorem null_ride_counted (store : List Ride) (d : Driver)
    (h : none ∈ d.assignedRides) :
    d.summaryCount = d.getAssignedCount
    ∧ (∀ e : Driver, (e.addRide none).getAssignedCount
        = e.getAssignedCount + 1)
    ∧ (∀ e : Driver, (e.addRide none).totalEarnings store
        = e.totalEarnings store)
    ∧ (d.detailedRides store).length < d.getAssignedCount
    ∧ d.totalEarnings store = ((d.detailedRides store).map Ride.fare).sum := by
  refine ⟨rfl, ?_, ?_, ?_, ?_⟩
  · intro e
    simp [Driver.addRide, Driver.getAssignedCount]
  · intro e
    simp [Driver.totalEarnings, Driver.addRide, List.foldl_append,
      Driver.earnStep, resolve]
  · exact length_filterMap_lt (resolve store) d.assignedRides ⟨none, h, rfl⟩
  · simpa using foldl_earnStep store d.assignedRides 0

/-- Witness for C10: a concrete driver holding one valid and one null
reference has header count 2 but only 1 detailed ride. -/
theorem null_ride_counted_witness :
    none ∈ driverW1.assignedRides
    ∧ (driverW1.detailedRides storeW).length < driverW1.getAssignedCount :=
  ⟨by decide, (null_ride_counted storeW driverW1 (by decide)).2.2.2.1⟩

end RideShare
